import Mathlib

/-!
Shallow embedding of the EventSub event-parsing and verification subsystem of
the twitch_api2 crate (src/eventsub/event.rs), together with the parts of its
data model that the module consumes.  Rust byte strings are `List Nat` (each
entry < 256), JSON documents are an inductive `Json` value (the text-to-value
step is serde_json, an external collaborator), and fallible Rust functions
return `Except` or `Option`.
-/

namespace TwitchApi

/-- JSON values as produced by serde_json from a well-formed document.
Numbers are restricted to integers: every numeric field consumed by this
module (only `cost`) is integral. Object fields are kept in document order,
as serde_json streams them. -/
inductive Json where
  | null : Json
  | bool (b : Bool) : Json
  | num (n : Int) : Json
  | str (s : String) : Json
  | arr (elems : List Json) : Json
  | obj (fields : List (String × Json)) : Json

/-- Look up the first field with the given key in a JSON object; `none` when
the value is not an object or the key is absent (serde: missing field). -/
def Json.getField : Json → String → Option Json
  | .obj fields, key => (fields.find? (fun p => p.1 == key)).map (·.2)
  | _, _ => none

/-- The string content of a JSON string value. -/
def Json.asStr : Json → Option String
  | .str s => some s
  | _ => none

/-- The integer content of a JSON number value. -/
def Json.asNum : Json → Option Int
  | .num n => some n
  | _ => none

/-- `EventType` from src/eventsub/event.rs: one variant per distinguishable
notification family. The serde rename attributes pin each variant to one
wire-level type string. -/
inductive EventType where
  | channelUpdate
  | channelFollow
  | channelSubscribe
  | channelCheer
  | channelBan
  | channelUnban
  | channelPointsCustomRewardAdd
  | channelPointsCustomRewardUpdate
  | channelPointsCustomRewardRemove
  | channelPointsCustomRewardRedemptionAdd
  | channelPointsCustomRewardRedemptionUpdate
  | channelPollBegin
  | channelPollProgress
  | channelPollEnd
  | channelPredictionBegin
  | channelPredictionProgress
  | channelPredictionLock
  | channelPredictionEnd
  | channelRaid
  | channelSubscriptionEnd
  | channelSubscriptionGift
  | channelSubscriptionMessage
  | channelGoalBegin
  | channelGoalProgress
  | channelGoalEnd
  | channelHypeTrainBegin
  | channelHypeTrainProgress
  | channelHypeTrainEnd
  | streamOnline
  | streamOffline
  | userUpdate
  | userAuthorizationRevoke
  | userAuthorizationGrant
deriving DecidableEq, Repr

/-- Serialization of `EventType` to its wire string: the serde rename table
of src/eventsub/event.rs, one string per variant. -/
def EventType.toWire : EventType → String
  | .channelUpdate => "channel.update"
  | .channelFollow => "channel.follow"
  | .channelSubscribe => "channel.subscribe"
  | .channelCheer => "channel.cheer"
  | .channelBan => "channel.ban"
  | .channelUnban => "channel.unban"
  | .channelPointsCustomRewardAdd => "channel.channel_points_custom_reward.add"
  | .channelPointsCustomRewardUpdate => "channel.channel_points_custom_reward.update"
  | .channelPointsCustomRewardRemove => "channel.channel_points_custom_reward.remove"
  | .channelPointsCustomRewardRedemptionAdd => "channel.channel_points_custom_reward_redemption.add"
  | .channelPointsCustomRewardRedemptionUpdate => "channel.channel_points_custom_reward_redemption.update"
  | .channelPollBegin => "channel.poll.begin"
  | .channelPollProgress => "channel.poll.progress"
  | .channelPollEnd => "channel.poll.end"
  | .channelPredictionBegin => "channel.prediction.begin"
  | .channelPredictionProgress => "channel.prediction.progress"
  | .channelPredictionLock => "channel.prediction.lock"
  | .channelPredictionEnd => "channel.prediction.end"
  | .channelRaid => "channel.raid"
  | .channelSubscriptionEnd => "channel.subscription.end"
  | .channelSubscriptionGift => "channel.subscription.gift"
  | .channelSubscriptionMessage => "channel.subscription.message"
  | .channelGoalBegin => "channel.goal.begin"
  | .channelGoalProgress => "channel.goal.progress"
  | .channelGoalEnd => "channel.goal.end"
  | .channelHypeTrainBegin => "channel.hype_train.begin"
  | .channelHypeTrainProgress => "channel.hype_train.progress"
  | .channelHypeTrainEnd => "channel.hype_train.end"
  | .streamOnline => "stream.online"
  | .streamOffline => "stream.offline"
  | .userUpdate => "user.update"
  | .userAuthorizationRevoke => "user.authorization.revoke"
  | .userAuthorizationGrant => "user.authorization.grant"

/-- All `EventType` variants, in declaration order. -/
def EventType.all : List EventType :=
  [.channelUpdate, .channelFollow, .channelSubscribe, .channelCheer,
   .channelBan, .channelUnban, .channelPointsCustomRewardAdd,
   .channelPointsCustomRewardUpdate, .channelPointsCustomRewardRemove,
   .channelPointsCustomRewardRedemptionAdd,
   .channelPointsCustomRewardRedemptionUpdate, .channelPollBegin,
   .channelPollProgress, .channelPollEnd, .channelPredictionBegin,
   .channelPredictionProgress, .channelPredictionLock, .channelPredictionEnd,
   .channelRaid, .channelSubscriptionEnd, .channelSubscriptionGift,
   .channelSubscriptionMessage, .channelGoalBegin, .channelGoalProgress,
   .channelGoalEnd, .channelHypeTrainBegin, .channelHypeTrainProgress,
   .channelHypeTrainEnd, .streamOnline, .streamOffline, .userUpdate,
   .userAuthorizationRevoke, .userAuthorizationGrant]

/-- Deserialization of an `EventType` from a wire string, as the serde derive
generates it from the rename attributes: the unique variant renamed to that
string, `none` for an unknown string (serde: unknown-variant error). -/
def EventType.fromWire (s : String) : Option EventType :=
  EventType.all.find? (fun t => t.toWire == s)

/-- Errors of the parse path. Modelled from the spec: the crate's
`PayloadParseError` type is not under src/, only its uses are. Variants follow
the spec's error taxonomy: `malformedEvent` is MalformedEnvelope (required
routing fields or headers absent or unparsable, including non-text headers),
`unknownEventType` carries the unrecognized wire string, `unimplementedEvent`
echoes the version string and the recognized tag, and `deserializeError`
stands for a schema DeserializationError after routing succeeded. -/
inductive PayloadParseError where
  | malformedEvent
  | unknownEventType (ty : String)
  | unimplementedEvent (version : String) (event_type : EventType)
  | deserializeError
deriving DecidableEq, Repr

/-- Modelled from the spec: the embedded subscription block
(`EventSubscriptionInformation`) is not under src/. Fields are the ones the
spec's wire format lists and src/eventsub/event.rs reads (`id`, `status`,
`cost`, `created_at`, `transport`, `condition`); the `transport` descriptor
and the family-specific `condition` are kept as raw JSON. -/
structure Subscription where
  id : String
  status : String
  cost : Nat
  created_at : String
  transport : Json
  condition : Json

/-- Deserialize a subscription block from JSON, serde-style: every field
required with its expected type (`cost` a non-negative integer for `usize`),
unknown fields ignored (permissive default). -/
def Subscription.fromJson (j : Json) : Option Subscription :=
  match (j.getField "id").bind Json.asStr, (j.getField "status").bind Json.asStr,
        (j.getField "cost").bind Json.asNum,
        (j.getField "created_at").bind Json.asStr,
        j.getField "transport", j.getField "condition" with
  | some id, some status, some cost, some created_at, some transport, some condition =>
    if cost < 0 then none
    else some ⟨id, status, cost.toNat, created_at, transport, condition⟩
  | _, _, _, _, _, _ => none

/-- Modelled from the spec: the `VerificationRequest` payload type is not
under src/. Per the spec it is a subscription block plus a string
`challenge`. -/
structure VerificationRequest where
  challenge : String
  subscription : Subscription

/-- Modelled from the spec: the `Message` sum carried inside a `Payload` is
not under src/. One constructor per MessageKind; the notification body (the
per-family typed payload, whose schemas are likewise not under src/) is kept
as the deserialized JSON value. -/
inductive Message where
  | notification (event : Json)
  | verificationRequest (v : VerificationRequest)
  | revocation

/-- Modelled from the spec: `Payload` is not under src/. A subscription block
plus the MessageKind-specific message body. -/
structure Payload where
  subscription : Subscription
  message : Message

/-- The Type Catalog: every supported (tag, schema version) pair. Modelled
from the spec: the `VERSION` and `EVENT_TYPE` associated constants live on
the per-family payload modules (channel::*, stream::*, user::*), which are
not under src/; the entry list itself is the one src/eventsub/event.rs
enumerates in its dispatch match, and every entry's payload type is the `V1`
variant of its family, fixing each version string to "1". -/
def catalog : List (EventType × String) :=
  EventType.all.map (fun t => (t, "1"))

/-- The catalog version string of a tag's unique entry. -/
def catalogVersion (_t : EventType) : String := "1"

/-- `Event` from src/eventsub/event.rs: the closed sum over all catalog
entries' payloads. The Rust type parameter (the per-family schema) is
reflected only in the constructor tag; each constructor carries a `Payload`
whose notification body is kept as JSON (see `Message`). -/
inductive Event where
  | channelUpdateV1 (p : Payload)
  | channelFollowV1 (p : Payload)
  | channelSubscribeV1 (p : Payload)
  | channelCheerV1 (p : Payload)
  | channelBanV1 (p : Payload)
  | channelUnbanV1 (p : Payload)
  | channelPointsCustomRewardAddV1 (p : Payload)
  | channelPointsCustomRewardUpdateV1 (p : Payload)
  | channelPointsCustomRewardRemoveV1 (p : Payload)
  | channelPointsCustomRewardRedemptionAddV1 (p : Payload)
  | channelPointsCustomRewardRedemptionUpdateV1 (p : Payload)
  | channelPollBeginV1 (p : Payload)
  | channelPollProgressV1 (p : Payload)
  | channelPollEndV1 (p : Payload)
  | channelPredictionBeginV1 (p : Payload)
  | channelPredictionProgressV1 (p : Payload)
  | channelPredictionLockV1 (p : Payload)
  | channelPredictionEndV1 (p : Payload)
  | channelGoalBeginV1 (p : Payload)
  | channelGoalProgressV1 (p : Payload)
  | channelGoalEndV1 (p : Payload)
  | channelHypeTrainBeginV1 (p : Payload)
  | channelHypeTrainProgressV1 (p : Payload)
  | channelHypeTrainEndV1 (p : Payload)
  | streamOnlineV1 (p : Payload)
  | streamOfflineV1 (p : Payload)
  | userUpdateV1 (p : Payload)
  | userAuthorizationGrantV1 (p : Payload)
  | userAuthorizationRevokeV1 (p : Payload)
  | channelRaidV1 (p : Payload)
  | channelSubscriptionEndV1 (p : Payload)
  | channelSubscriptionGiftV1 (p : Payload)
  | channelSubscriptionMessageV1 (p : Payload)

/-- The variant a catalog entry's tag routes to, as fixed by the dispatch
match of `Event::parse_request` (each tag appears in exactly one arm). -/
def Event.dispatch (t : EventType) (p : Payload) : Event :=
  match t with
  | .channelUpdate => .channelUpdateV1 p
  | .channelFollow => .channelFollowV1 p
  | .channelSubscribe => .channelSubscribeV1 p
  | .channelCheer => .channelCheerV1 p
  | .channelBan => .channelBanV1 p
  | .channelUnban => .channelUnbanV1 p
  | .channelPointsCustomRewardAdd => .channelPointsCustomRewardAddV1 p
  | .channelPointsCustomRewardUpdate => .channelPointsCustomRewardUpdateV1 p
  | .channelPointsCustomRewardRemove => .channelPointsCustomRewardRemoveV1 p
  | .channelPointsCustomRewardRedemptionAdd => .channelPointsCustomRewardRedemptionAddV1 p
  | .channelPointsCustomRewardRedemptionUpdate => .channelPointsCustomRewardRedemptionUpdateV1 p
  | .channelPollBegin => .channelPollBeginV1 p
  | .channelPollProgress => .channelPollProgressV1 p
  | .channelPollEnd => .channelPollEndV1 p
  | .channelPredictionBegin => .channelPredictionBeginV1 p
  | .channelPredictionProgress => .channelPredictionProgressV1 p
  | .channelPredictionLock => .channelPredictionLockV1 p
  | .channelPredictionEnd => .channelPredictionEndV1 p
  | .channelRaid => .channelRaidV1 p
  | .channelSubscriptionEnd => .channelSubscriptionEndV1 p
  | .channelSubscriptionGift => .channelSubscriptionGiftV1 p
  | .channelSubscriptionMessage => .channelSubscriptionMessageV1 p
  | .channelGoalBegin => .channelGoalBeginV1 p
  | .channelGoalProgress => .channelGoalProgressV1 p
  | .channelGoalEnd => .channelGoalEndV1 p
  | .channelHypeTrainBegin => .channelHypeTrainBeginV1 p
  | .channelHypeTrainProgress => .channelHypeTrainProgressV1 p
  | .channelHypeTrainEnd => .channelHypeTrainEndV1 p
  | .streamOnline => .streamOnlineV1 p
  | .streamOffline => .streamOfflineV1 p
  | .userUpdate => .userUpdateV1 p
  | .userAuthorizationRevoke => .userAuthorizationRevokeV1 p
  | .userAuthorizationGrant => .userAuthorizationGrantV1 p

/-- The tag of an event's variant (the `EVENT_TYPE` associated constant of
the variant's payload schema, which `Payload::get_event_type` returns;
modelled from the spec since the constants are not under src/). -/
def Event.tagOf : Event → EventType
  | .channelUpdateV1 _ => .channelUpdate
  | .channelFollowV1 _ => .channelFollow
  | .channelSubscribeV1 _ => .channelSubscribe
  | .channelCheerV1 _ => .channelCheer
  | .channelBanV1 _ => .channelBan
  | .channelUnbanV1 _ => .channelUnban
  | .channelPointsCustomRewardAddV1 _ => .channelPointsCustomRewardAdd
  | .channelPointsCustomRewardUpdateV1 _ => .channelPointsCustomRewardUpdate
  | .channelPointsCustomRewardRemoveV1 _ => .channelPointsCustomRewardRemove
  | .channelPointsCustomRewardRedemptionAddV1 _ => .channelPointsCustomRewardRedemptionAdd
  | .channelPointsCustomRewardRedemptionUpdateV1 _ => .channelPointsCustomRewardRedemptionUpdate
  | .channelPollBeginV1 _ => .channelPollBegin
  | .channelPollProgressV1 _ => .channelPollProgress
  | .channelPollEndV1 _ => .channelPollEnd
  | .channelPredictionBeginV1 _ => .channelPredictionBegin
  | .channelPredictionProgressV1 _ => .channelPredictionProgress
  | .channelPredictionLockV1 _ => .channelPredictionLock
  | .channelPredictionEndV1 _ => .channelPredictionEnd
  | .channelGoalBeginV1 _ => .channelGoalBegin
  | .channelGoalProgressV1 _ => .channelGoalProgress
  | .channelGoalEndV1 _ => .channelGoalEnd
  | .channelHypeTrainBeginV1 _ => .channelHypeTrainBegin
  | .channelHypeTrainProgressV1 _ => .channelHypeTrainProgress
  | .channelHypeTrainEndV1 _ => .channelHypeTrainEnd
  | .streamOnlineV1 _ => .streamOnline
  | .streamOfflineV1 _ => .streamOffline
  | .userUpdateV1 _ => .userUpdate
  | .userAuthorizationGrantV1 _ => .userAuthorizationGrant
  | .userAuthorizationRevokeV1 _ => .userAuthorizationRevoke
  | .channelRaidV1 _ => .channelRaid
  | .channelSubscriptionEndV1 _ => .channelSubscriptionEnd
  | .channelSubscriptionGiftV1 _ => .channelSubscriptionGift
  | .channelSubscriptionMessageV1 _ => .channelSubscriptionMessage

/-- The payload carried by an event, uniform across variants. -/
def Event.payloadOf : Event → Payload
  | .channelUpdateV1 p => p
  | .channelFollowV1 p => p
  | .channelSubscribeV1 p => p
  | .channelCheerV1 p => p
  | .channelBanV1 p => p
  | .channelUnbanV1 p => p
  | .channelPointsCustomRewardAddV1 p => p
  | .channelPointsCustomRewardUpdateV1 p => p
  | .channelPointsCustomRewardRemoveV1 p => p
  | .channelPointsCustomRewardRedemptionAddV1 p => p
  | .channelPointsCustomRewardRedemptionUpdateV1 p => p
  | .channelPollBeginV1 p => p
  | .channelPollProgressV1 p => p
  | .channelPollEndV1 p => p
  | .channelPredictionBeginV1 p => p
  | .channelPredictionProgressV1 p => p
  | .channelPredictionLockV1 p => p
  | .channelPredictionEndV1 p => p
  | .channelGoalBeginV1 p => p
  | .channelGoalProgressV1 p => p
  | .channelGoalEndV1 p => p
  | .channelHypeTrainBeginV1 p => p
  | .channelHypeTrainProgressV1 p => p
  | .channelHypeTrainEndV1 p => p
  | .streamOnlineV1 p => p
  | .streamOfflineV1 p => p
  | .userUpdateV1 p => p
  | .userAuthorizationGrantV1 p => p
  | .userAuthorizationRevokeV1 p => p
  | .channelRaidV1 p => p
  | .channelSubscriptionEndV1 p => p
  | .channelSubscriptionGiftV1 p => p
  | .channelSubscriptionMessageV1 p => p

/-- `Event::is_notification`: the `is_thing` macro expansion, one arm per
catalog entry matching a `Notification` message, wildcard false. -/
def Event.is_notification : Event → Bool
  | .channelUpdateV1 ⟨_, .notification _⟩ => true
  | .channelFollowV1 ⟨_, .notification _⟩ => true
  | .channelSubscribeV1 ⟨_, .notification _⟩ => true
  | .channelCheerV1 ⟨_, .notification _⟩ => true
  | .channelBanV1 ⟨_, .notification _⟩ => true
  | .channelUnbanV1 ⟨_, .notification _⟩ => true
  | .channelPointsCustomRewardAddV1 ⟨_, .notification _⟩ => true
  | .channelPointsCustomRewardUpdateV1 ⟨_, .notification _⟩ => true
  | .channelPointsCustomRewardRemoveV1 ⟨_, .notification _⟩ => true
  | .channelPointsCustomRewardRedemptionAddV1 ⟨_, .notification _⟩ => true
  | .channelPointsCustomRewardRedemptionUpdateV1 ⟨_, .notification _⟩ => true
  | .channelPollBeginV1 ⟨_, .notification _⟩ => true
  | .channelPollProgressV1 ⟨_, .notification _⟩ => true
  | .channelPollEndV1 ⟨_, .notification _⟩ => true
  | .channelPredictionBeginV1 ⟨_, .notification _⟩ => true
  | .channelPredictionProgressV1 ⟨_, .notification _⟩ => true
  | .channelPredictionLockV1 ⟨_, .notification _⟩ => true
  | .channelPredictionEndV1 ⟨_, .notification _⟩ => true
  | .channelRaidV1 ⟨_, .notification _⟩ => true
  | .channelSubscriptionEndV1 ⟨_, .notification _⟩ => true
  | .channelSubscriptionGiftV1 ⟨_, .notification _⟩ => true
  | .channelSubscriptionMessageV1 ⟨_, .notification _⟩ => true
  | .channelGoalBeginV1 ⟨_, .notification _⟩ => true
  | .channelGoalProgressV1 ⟨_, .notification _⟩ => true
  | .channelGoalEndV1 ⟨_, .notification _⟩ => true
  | .channelHypeTrainBeginV1 ⟨_, .notification _⟩ => true
  | .channelHypeTrainProgressV1 ⟨_, .notification _⟩ => true
  | .channelHypeTrainEndV1 ⟨_, .notification _⟩ => true
  | .streamOnlineV1 ⟨_, .notification _⟩ => true
  | .streamOfflineV1 ⟨_, .notification _⟩ => true
  | .userUpdateV1 ⟨_, .notification _⟩ => true
  | .userAuthorizationGrantV1 ⟨_, .notification _⟩ => true
  | .userAuthorizationRevokeV1 ⟨_, .notification _⟩ => true
  | _ => false

/-- `Event::is_revocation`: the `is_thing` macro expansion for `Revocation`. -/
def Event.is_revocation : Event → Bool
  | .channelUpdateV1 ⟨_, .revocation⟩ => true
  | .channelFollowV1 ⟨_, .revocation⟩ => true
  | .channelSubscribeV1 ⟨_, .revocation⟩ => true
  | .channelCheerV1 ⟨_, .revocation⟩ => true
  | .channelBanV1 ⟨_, .revocation⟩ => true
  | .channelUnbanV1 ⟨_, .revocation⟩ => true
  | .channelPointsCustomRewardAddV1 ⟨_, .revocation⟩ => true
  | .channelPointsCustomRewardUpdateV1 ⟨_, .revocation⟩ => true
  | .channelPointsCustomRewardRemoveV1 ⟨_, .revocation⟩ => true
  | .channelPointsCustomRewardRedemptionAddV1 ⟨_, .revocation⟩ => true
  | .channelPointsCustomRewardRedemptionUpdateV1 ⟨_, .revocation⟩ => true
  | .channelPollBeginV1 ⟨_, .revocation⟩ => true
  | .channelPollProgressV1 ⟨_, .revocation⟩ => true
  | .channelPollEndV1 ⟨_, .revocation⟩ => true
  | .channelPredictionBeginV1 ⟨_, .revocation⟩ => true
  | .channelPredictionProgressV1 ⟨_, .revocation⟩ => true
  | .channelPredictionLockV1 ⟨_, .revocation⟩ => true
  | .channelPredictionEndV1 ⟨_, .revocation⟩ => true
  | .channelRaidV1 ⟨_, .revocation⟩ => true
  | .channelSubscriptionEndV1 ⟨_, .revocation⟩ => true
  | .channelSubscriptionGiftV1 ⟨_, .revocation⟩ => true
  | .channelSubscriptionMessageV1 ⟨_, .revocation⟩ => true
  | .channelGoalBeginV1 ⟨_, .revocation⟩ => true
  | .channelGoalProgressV1 ⟨_, .revocation⟩ => true
  | .channelGoalEndV1 ⟨_, .revocation⟩ => true
  | .channelHypeTrainBeginV1 ⟨_, .revocation⟩ => true
  | .channelHypeTrainProgressV1 ⟨_, .revocation⟩ => true
  | .channelHypeTrainEndV1 ⟨_, .revocation⟩ => true
  | .streamOnlineV1 ⟨_, .revocation⟩ => true
  | .streamOfflineV1 ⟨_, .revocation⟩ => true
  | .userUpdateV1 ⟨_, .revocation⟩ => true
  | .userAuthorizationGrantV1 ⟨_, .revocation⟩ => true
  | .userAuthorizationRevokeV1 ⟨_, .revocation⟩ => true
  | _ => false

/-- `Event::is_verification_request`: the `is_thing` macro expansion for
`VerificationRequest`. -/
def Event.is_verification_request : Event → Bool
  | .channelUpdateV1 ⟨_, .verificationRequest _⟩ => true
  | .channelFollowV1 ⟨_, .verificationRequest _⟩ => true
  | .channelSubscribeV1 ⟨_, .verificationRequest _⟩ => true
  | .channelCheerV1 ⟨_, .verificationRequest _⟩ => true
  | .channelBanV1 ⟨_, .verificationRequest _⟩ => true
  | .channelUnbanV1 ⟨_, .verificationRequest _⟩ => true
  | .channelPointsCustomRewardAddV1 ⟨_, .verificationRequest _⟩ => true
  | .channelPointsCustomRewardUpdateV1 ⟨_, .verificationRequest _⟩ => true
  | .channelPointsCustomRewardRemoveV1 ⟨_, .verificationRequest _⟩ => true
  | .channelPointsCustomRewardRedemptionAddV1 ⟨_, .verificationRequest _⟩ => true
  | .channelPointsCustomRewardRedemptionUpdateV1 ⟨_, .verificationRequest _⟩ => true
  | .channelPollBeginV1 ⟨_, .verificationRequest _⟩ => true
  | .channelPollProgressV1 ⟨_, .verificationRequest _⟩ => true
  | .channelPollEndV1 ⟨_, .verificationRequest _⟩ => true
  | .channelPredictionBeginV1 ⟨_, .verificationRequest _⟩ => true
  | .channelPredictionProgressV1 ⟨_, .verificationRequest _⟩ => true
  | .channelPredictionLockV1 ⟨_, .verificationRequest _⟩ => true
  | .channelPredictionEndV1 ⟨_, .verificationRequest _⟩ => true
  | .channelRaidV1 ⟨_, .verificationRequest _⟩ => true
  | .channelSubscriptionEndV1 ⟨_, .verificationRequest _⟩ => true
  | .channelSubscriptionGiftV1 ⟨_, .verificationRequest _⟩ => true
  | .channelSubscriptionMessageV1 ⟨_, .verificationRequest _⟩ => true
  | .channelGoalBeginV1 ⟨_, .verificationRequest _⟩ => true
  | .channelGoalProgressV1 ⟨_, .verificationRequest _⟩ => true
  | .channelGoalEndV1 ⟨_, .verificationRequest _⟩ => true
  | .channelHypeTrainBeginV1 ⟨_, .verificationRequest _⟩ => true
  | .channelHypeTrainProgressV1 ⟨_, .verificationRequest _⟩ => true
  | .channelHypeTrainEndV1 ⟨_, .verificationRequest _⟩ => true
  | .streamOnlineV1 ⟨_, .verificationRequest _⟩ => true
  | .streamOfflineV1 ⟨_, .verificationRequest _⟩ => true
  | .userUpdateV1 ⟨_, .verificationRequest _⟩ => true
  | .userAuthorizationGrantV1 ⟨_, .verificationRequest _⟩ => true
  | .userAuthorizationRevokeV1 ⟨_, .verificationRequest _⟩ => true
  | _ => false

/-- `Event::get_verification_request`: one arm per variant matching a
`VerificationRequest` message and returning it, wildcard `None`. -/
def Event.get_verification_request : Event → Option VerificationRequest
  | .channelUpdateV1 ⟨_, .verificationRequest v⟩ => some v
  | .channelFollowV1 ⟨_, .verificationRequest v⟩ => some v
  | .channelSubscribeV1 ⟨_, .verificationRequest v⟩ => some v
  | .channelCheerV1 ⟨_, .verificationRequest v⟩ => some v
  | .channelBanV1 ⟨_, .verificationRequest v⟩ => some v
  | .channelUnbanV1 ⟨_, .verificationRequest v⟩ => some v
  | .channelPointsCustomRewardAddV1 ⟨_, .verificationRequest v⟩ => some v
  | .channelPointsCustomRewardUpdateV1 ⟨_, .verificationRequest v⟩ => some v
  | .channelPointsCustomRewardRemoveV1 ⟨_, .verificationRequest v⟩ => some v
  | .channelPointsCustomRewardRedemptionAddV1 ⟨_, .verificationRequest v⟩ => some v
  | .channelPointsCustomRewardRedemptionUpdateV1 ⟨_, .verificationRequest v⟩ => some v
  | .channelPollBeginV1 ⟨_, .verificationRequest v⟩ => some v
  | .channelPollProgressV1 ⟨_, .verificationRequest v⟩ => some v
  | .channelPollEndV1 ⟨_, .verificationRequest v⟩ => some v
  | .channelPredictionBeginV1 ⟨_, .verificationRequest v⟩ => some v
  | .channelPredictionProgressV1 ⟨_, .verificationRequest v⟩ => some v
  | .channelPredictionLockV1 ⟨_, .verificationRequest v⟩ => some v
  | .channelPredictionEndV1 ⟨_, .verificationRequest v⟩ => some v
  | .channelGoalBeginV1 ⟨_, .verificationRequest v⟩ => some v
  | .channelGoalProgressV1 ⟨_, .verificationRequest v⟩ => some v
  | .channelGoalEndV1 ⟨_, .verificationRequest v⟩ => some v
  | .channelHypeTrainBeginV1 ⟨_, .verificationRequest v⟩ => some v
  | .channelHypeTrainProgressV1 ⟨_, .verificationRequest v⟩ => some v
  | .channelHypeTrainEndV1 ⟨_, .verificationRequest v⟩ => some v
  | .streamOnlineV1 ⟨_, .verificationRequest v⟩ => some v
  | .streamOfflineV1 ⟨_, .verificationRequest v⟩ => some v
  | .userUpdateV1 ⟨_, .verificationRequest v⟩ => some v
  | .userAuthorizationGrantV1 ⟨_, .verificationRequest v⟩ => some v
  | .userAuthorizationRevokeV1 ⟨_, .verificationRequest v⟩ => some v
  | .channelRaidV1 ⟨_, .verificationRequest v⟩ => some v
  | .channelSubscriptionEndV1 ⟨_, .verificationRequest v⟩ => some v
  | .channelSubscriptionGiftV1 ⟨_, .verificationRequest v⟩ => some v
  | .channelSubscriptionMessageV1 ⟨_, .verificationRequest v⟩ => some v
  | _ => none

/-- The normalized subscription-metadata record (`EventSubSubscription`).
Modelled from the spec: the record type itself is not under src/; its fields
are the ones `Event::subscription` populates. -/
structure EventSubSubscription where
  cost : Nat
  condition : Json
  created_at : String
  id : String
  status : String
  transport : Json
  type_ : EventType
  version : String

/-- Modelled from the spec: resolution of the family-specific condition
sub-schema (`Condition::condition`, not under src/) into its normalized form;
succeeds on a structurally valid (object) condition and fails with a
condition-resolution error on malformed nested JSON. -/
def conditionResolve (j : Json) : Option Json :=
  match j with
  | .obj _ => some j
  | _ => none

/-- `Event::subscription`: the `match_event` macro expansion. Each arm copies
`cost`, `created_at`, `id`, `status` and `transport` from the embedded
subscription block, resolves the condition (propagating its failure), and
takes `type_` and `version` from the variant's associated constants
(`get_event_type` and `get_event_version`). `None` models the
`serde_json::Error` result of a failed condition resolution. -/
def Event.subscription (e : Event) : Option EventSubSubscription :=
  (conditionResolve e.payloadOf.subscription.condition).map (fun c =>
    { cost := e.payloadOf.subscription.cost
      condition := c
      created_at := e.payloadOf.subscription.created_at
      id := e.payloadOf.subscription.id
      status := e.payloadOf.subscription.status
      transport := e.payloadOf.subscription.transport
      type_ := e.tagOf
      version := catalogVersion e.tagOf })

/-- The byte string of an ASCII Lean string (used for the message-kind
markers the envelope parsers hand to the dispatcher). -/
def strBytes (s : String) : List Nat :=
  s.toList.map Char.toNat

/-- Modelled from the spec: `Payload::parse_request` is not under src/. Per
the spec's wire format, the body is deserialized against the shape selected
by the message-kind marker: a notification needs the subscription block and
a populated `event` object, a verification request needs the block and a
string `challenge`, a revocation needs the block alone. A failed body
deserialization is the schema DeserializationError; an unrecognized
message-kind marker cannot be routed and is MalformedEnvelope. -/
def Payload.parse_request (message_type : List Nat) (source : Json) :
    Except PayloadParseError Payload :=
  match (source.getField "subscription").bind Subscription.fromJson with
  | none => .error .deserializeError
  | some sub =>
    if message_type = strBytes "notification" then
      match source.getField "event" with
      | some (.obj fields) => .ok ⟨sub, .notification (.obj fields)⟩
      | _ => .error .deserializeError
    else if message_type = strBytes "webhook_callback_verification" then
      match (source.getField "challenge").bind Json.asStr with
      | some challenge => .ok ⟨sub, .verificationRequest ⟨challenge, sub⟩⟩
      | none => .error .deserializeError
    else if message_type = strBytes "revocation" then
      .ok ⟨sub, .revocation⟩
    else .error .malformedEvent

/-- `Event::parse_request`: the dispatch match over all catalog entries. The
source's 33-arm match on (version, event type) against each entry's
(`VERSION`, `EVENT_TYPE`) pair, with each tag in exactly one arm, is the
membership test against `catalog`; a hit routes the body through
`Payload::parse_request` into that tag's variant, a miss echoes both inputs
in an UnimplementedEvent error. -/
def Event.parse_request (version : String) (event_type : EventType)
    (message_type : List Nat) (source : Json) : Except PayloadParseError Event :=
  if (event_type, version) ∈ catalog then
    (Payload.parse_request message_type source).map (Event.dispatch event_type)
  else
    .error (.unimplementedEvent version event_type)

/-- The outcome of the `Option Empty` probe fields (`challenge`, `event`) of
the envelope shape `IEvent`, under serde semantics: an absent or null field
is `None`, a JSON object deserializes into `Empty` (unknown fields ignored),
and any other value fails `Empty` deserialization, failing the whole
envelope parse. (serde_json would also accept a sequence encoding of a
struct here; the bodies this protocol defines carry objects, strings or
nothing in these fields, and sequences are modelled as rejected like the
other non-object values.) -/
def optEmptyField (body : Json) (key : String) : Option (Option Unit) :=
  match body.getField key with
  | none => some none
  | some .null => some none
  | some (.obj _) => some (some ())
  | some _ => none

/-- `get_version_event_type_and_message_type_from_text`, over the parsed
JSON value of the text body (text to value is serde_json, external). The
minimal `IEvent` shape needs a `subscription` object with a string `type`
and a string `version`, plus the two probe fields; the message kind is
notification when `event` is populated, else verification request when
`challenge` is populated, else revocation.

The mapping of a failed minimal-shape parse to an error variant lives in
`parse_json` and the error conversions, which are not under src/ and are
modelled from the spec: an unknown type string is UnknownEventType
regardless of the rest of the body, and any other failure of the minimal
shape is MalformedEnvelope. -/
def get_version_event_type_and_message_type_from_text (body : Json) :
    Except PayloadParseError (String × EventType × List Nat) :=
  match body.getField "subscription" with
  | none => .error .malformedEvent
  | some sub =>
    match (sub.getField "type").bind Json.asStr with
    | none => .error .malformedEvent
    | some tyStr =>
      match EventType.fromWire tyStr with
      | none => .error (.unknownEventType tyStr)
      | some ty =>
        match (sub.getField "version").bind Json.asStr with
        | none => .error .malformedEvent
        | some version =>
          match optEmptyField body "challenge", optEmptyField body "event" with
          | some challenge, some event =>
            if event.isSome then
              .ok (version, ty, strBytes "notification")
            else if challenge.isSome then
              .ok (version, ty, strBytes "webhook_callback_verification")
            else
              .ok (version, ty, strBytes "revocation")
          | _, _ => .error .malformedEvent

/-- `Event::parse`: envelope from the text body, then dispatch over the same
body. -/
def Event.parse (body : Json) : Except PayloadParseError Event := do
  let (version, ty, message_type) ← get_version_event_type_and_message_type_from_text body
  Event.parse_request version ty message_type body

/-- Strict UTF-8 decoding of a byte string (`std::str::from_utf8`):
continuation ranges, overlong forms and surrogates rejected exactly as the
encoding defines them. -/
def utf8Decode : List Nat → Option (List Char)
  | [] => some []
  | b0 :: rest =>
    if b0 < 0x80 then
      (utf8Decode rest).map (fun cs => Char.ofNat b0 :: cs)
    else if b0 < 0xC2 then none
    else if b0 ≤ 0xDF then
      match rest with
      | b1 :: rest' =>
        if 0x80 ≤ b1 ∧ b1 ≤ 0xBF then
          (utf8Decode rest').map (fun cs =>
            Char.ofNat ((b0 - 0xC0) * 0x40 + (b1 - 0x80)) :: cs)
        else none
      | [] => none
    else if b0 ≤ 0xEF then
      match rest with
      | b1 :: b2 :: rest' =>
        if (if b0 = 0xE0 then 0xA0 else 0x80) ≤ b1 ∧
            b1 ≤ (if b0 = 0xED then 0x9F else 0xBF) ∧
            0x80 ≤ b2 ∧ b2 ≤ 0xBF then
          (utf8Decode rest').map (fun cs =>
            Char.ofNat ((b0 - 0xE0) * 0x1000 + (b1 - 0x80) * 0x40 + (b2 - 0x80)) :: cs)
        else none
      | _ => none
    else if b0 ≤ 0xF4 then
      match rest with
      | b1 :: b2 :: b3 :: rest' =>
        if (if b0 = 0xF0 then 0x90 else 0x80) ≤ b1 ∧
            b1 ≤ (if b0 = 0xF4 then 0x8F else 0xBF) ∧
            0x80 ≤ b2 ∧ b2 ≤ 0xBF ∧ 0x80 ≤ b3 ∧ b3 ≤ 0xBF then
          (utf8Decode rest').map (fun cs =>
            Char.ofNat ((b0 - 0xF0) * 0x40000 + (b1 - 0x80) * 0x1000 +
              (b2 - 0x80) * 0x40 + (b3 - 0x80)) :: cs)
        else none
      | _ => none
    else none

/-- An inbound HTTP request on the parse path: the header map, and the body
already taken through serde_json's text-to-value step (external). Header
names are stored as the http crate canonicalizes them. -/
structure HttpJsonRequest where
  headers : List (String × List Nat)
  body : Json

/-- Header lookup (`HeaderMap::get`): the first entry with the given name. -/
def HttpJsonRequest.getHeader (r : HttpJsonRequest) (name : String) :
    Option (List Nat) :=
  (r.headers.find? (fun p => p.1 == name)).map (·.2)

/-- One header read of the http envelope path:
`get(name).map(as_bytes).map(from_utf8).transpose()?`. An absent header is
`none`; a present header that is not valid UTF-8 propagates an error at once
(modelled from the spec as MalformedEnvelope, the variant for headers that
are not valid text). -/
def headerText (r : HttpJsonRequest) (name : String) :
    Except PayloadParseError (Option String) :=
  match r.getHeader name with
  | none => .ok none
  | some bs =>
    match utf8Decode bs with
    | some cs => .ok (some (String.mk cs))
    | none => .error .malformedEvent

/-- `get_version_event_type_and_message_type_from_http`: the three routing
headers, type and version as text, message kind as raw bytes; all three must
be present, and the type string must deserialize into an `EventType`, else
UnknownEventType carrying the string. -/
def get_version_event_type_and_message_type_from_http (r : HttpJsonRequest) :
    Except PayloadParseError (String × EventType × List Nat) := do
  let tyS ← headerText r "Twitch-Eventsub-Subscription-Type"
  let verS ← headerText r "Twitch-Eventsub-Subscription-Version"
  match tyS, verS, r.getHeader "Twitch-Eventsub-Message-Type" with
  | some ty, some version, some message_type =>
    match EventType.fromWire ty with
    | some et => .ok (version, et, message_type)
    | none => .error (.unknownEventType ty)
  | _, _, _ => .error .malformedEvent

/-- `Event::parse_http`: envelope from the headers, then dispatch over the
request body. -/
def Event.parse_http (r : HttpJsonRequest) : Except PayloadParseError Event := do
  let (version, ty, message_type) ← get_version_event_type_and_message_type_from_http r
  Event.parse_request version ty message_type r.body

/-! The authenticity verifier. The MAC is HMAC-SHA-256 from the external
sha2 and crypto-hmac crates, embedded here as the standard algorithms over
byte strings (`List Nat`, entries < 256, 32-bit words as `Nat` reduced
modulo 2 ^ 32). -/

/-- 32-bit word arithmetic: truncating addition. -/
def w32add (a b : Nat) : Nat := (a + b) % 4294967296

/-- Bitwise exclusive or over the given bit width, computed bit by bit with
division and remainder only (the standard definition of xor; plain
arithmetic keeps kernel evaluation cheap). -/
def xorBits : Nat → Nat → Nat → Nat
  | 0, _, _ => 0
  | w + 1, a, b => (a + b) % 2 + 2 * xorBits w (a / 2) (b / 2)

/-- Bitwise and over the given bit width, bit by bit. -/
def andBits : Nat → Nat → Nat → Nat
  | 0, _, _ => 0
  | w + 1, a, b => a % 2 * (b % 2) + 2 * andBits w (a / 2) (b / 2)

/-- 32-bit exclusive or. -/
def xor32 (a b : Nat) : Nat := xorBits 32 a b

/-- 32-bit and. -/
def and32 (a b : Nat) : Nat := andBits 32 a b

/-- 32-bit right rotation of a word below 2 ^ 32: the low `n` bits move to
the top, the rest shift down. -/
def rotr32 (n x : Nat) : Nat :=
  x / 2 ^ n + x % 2 ^ n * 2 ^ (32 - n)

/-- 32-bit logical right shift. -/
def shr32 (n x : Nat) : Nat := x / 2 ^ n

/-- The SHA-256 round constants. -/
def shaK : List Nat :=
  [1116352408, 1899447441, 3049323471, 3921009573, 961987163, 1508970993, 2453635748,
   2870763221, 3624381080, 310598401, 607225278, 1426881987, 1925078388, 2162078206,
   2614888103, 3248222580, 3835390401, 4022224774, 264347078, 604807628, 770255983,
   1249150122, 1555081692, 1996064986, 2554220882, 2821834349, 2952996808, 3210313671,
   3336571891, 3584528711, 113926993, 338241895, 666307205, 773529912, 1294757372,
   1396182291, 1695183700, 1986661051, 2177026350, 2456956037, 2730485921, 2820302411,
   3259730800, 3345764771, 3516065817, 3600352804, 4094571909, 275423344, 430227734,
   506948616, 659060556, 883997877, 958139571, 1322822218, 1537002063, 1747873779,
   1955562222, 2024104815, 2227730452, 2361852424, 2428436474, 2756734187, 3204031479,
   3329325298]

/-- The SHA-256 initial hash state. -/
def shaInit : List Nat :=
  [1779033703, 3144134277, 1013904242, 2773480762, 1359893119, 2600822924, 528734635,
   1541459225]

/-- Split a byte string into chunks of the given positive size. The fuel is
the list length, enough for every positive chunk size; recursion on it keeps
the definition structural. -/
def chunksOfAux (n : Nat) : Nat → List Nat → List (List Nat)
  | 0, _ => []
  | _, [] => []
  | fuel + 1, l => l.take n :: chunksOfAux n fuel (l.drop n)

/-- Split a byte string into chunks of the given positive size. -/
def chunksOf (n : Nat) (l : List Nat) : List (List Nat) :=
  chunksOfAux n l.length l

/-- Big-endian word of four bytes. -/
def wordOfBytes : List Nat → Nat
  | [b0, b1, b2, b3] => b0 * 0x1000000 + b1 * 0x10000 + b2 * 0x100 + b3
  | _ => 0

/-- Big-endian bytes of a 32-bit word. -/
def bytesOfWord (w : Nat) : List Nat :=
  [w / 0x1000000 % 256, w / 0x10000 % 256, w / 0x100 % 256, w % 256]

/-- The SHA-256 message schedule: extend sixteen block words to sixty-four. -/
def shaSchedule (ws : Array Nat) : Array Nat :=
  (List.range 48).foldl (fun w i =>
    let w15 := w.getD (i + 1) 0
    let w2 := w.getD (i + 14) 0
    let s0 := xor32 (xor32 (rotr32 7 w15) (rotr32 18 w15)) (shr32 3 w15)
    let s1 := xor32 (xor32 (rotr32 17 w2) (rotr32 19 w2)) (shr32 10 w2)
    w.push (w32add (w32add (w.getD i 0) s0) (w32add (w.getD (i + 9) 0) s1))) ws

/-- One SHA-256 compression: fold the sixty-four rounds over a block's
schedule and add the result into the running state. -/
def shaCompress (state : List Nat) (block : List Nat) : List Nat :=
  let ws := shaSchedule ((chunksOf 4 block).map wordOfBytes).toArray
  let final := (List.range 64).foldl (fun st i =>
    match st with
    | [a, b, c, d, e, f, g, h] =>
      let s1 := xor32 (xor32 (rotr32 6 e) (rotr32 11 e)) (rotr32 25 e)
      let ch := xor32 (and32 e f) (and32 (4294967295 - e) g)
      let temp1 := w32add (w32add (w32add h s1) (w32add ch (shaK.getD i 0)))
        (ws.getD i 0)
      let s0 := xor32 (xor32 (rotr32 2 a) (rotr32 13 a)) (rotr32 22 a)
      let maj := xor32 (xor32 (and32 a b) (and32 a c)) (and32 b c)
      let temp2 := w32add s0 maj
      [w32add temp1 temp2, a, b, c, w32add d temp1, e, f, g]
    | other => other) state
  List.zipWith w32add state final

/-- SHA-256 padding: the 0x80 marker, zeros to 56 mod 64, and the bit length
as eight big-endian bytes. -/
def shaPad (msg : List Nat) : List Nat :=
  let len := msg.length
  let zeros := (119 - len % 64) % 64
  let bitLen := 8 * len
  msg ++ [0x80] ++ List.replicate zeros 0 ++
    [bitLen / 0x100000000000000 % 256, bitLen / 0x1000000000000 % 256,
     bitLen / 0x10000000000 % 256, bitLen / 0x100000000 % 256,
     bitLen / 0x1000000 % 256, bitLen / 0x10000 % 256,
     bitLen / 0x100 % 256, bitLen % 256]

/-- SHA-256 of a byte string. -/
def sha256 (msg : List Nat) : List Nat :=
  (((chunksOf 64 (shaPad msg)).foldl shaCompress shaInit).map bytesOfWord).flatten

/-- HMAC-SHA-256: hash an over-long key, zero-pad to the 64-byte block,
inner hash under the 0x36 pad, outer hash under the 0x5c pad. -/
def hmacSha256 (key msg : List Nat) : List Nat :=
  let k0 := if 64 < key.length then sha256 key else key
  let k := k0 ++ List.replicate (64 - k0.length) 0
  sha256 ((k.map (fun b => xorBits 8 b 0x5c)) ++
    sha256 ((k.map (fun b => xorBits 8 b 0x36)) ++ msg))

/-- An inbound HTTP request on the verification path: the header map with
raw byte values, and the raw body bytes. -/
structure HttpRequest where
  headers : List (String × List Nat)
  body : List Nat

/-- Header lookup (`HeaderMap::get`): the first entry with the given name. -/
def HttpRequest.getHeader (r : HttpRequest) (name : String) : Option (List Nat) :=
  (r.headers.find? (fun p => p.1 == name)).map (·.2)

/-- `HeaderValue::to_str` of the http crate: succeeds exactly when every
byte is visible ASCII or horizontal tab, yielding those bytes as text. -/
def headerValueToStr (bs : List Nat) : Option String :=
  if bs.all (fun b => b == 9 || (Nat.ble 32 b && Nat.blt b 127)) then
    some (String.mk (bs.map Char.ofNat))
  else none

/-- `str::starts_with` over the character lists of the two strings. -/
def strStartsWith (s pre : String) : Bool :=
  pre.toList.isPrefixOf s.toList

/-- The numeric value of one hexadecimal digit, either case. -/
def hexDigitVal (c : Char) : Option Nat :=
  if '0' ≤ c ∧ c ≤ '9' then some (c.toNat - 48)
  else if 'a' ≤ c ∧ c ≤ 'f' then some (c.toNat - 87)
  else if 'A' ≤ c ∧ c ≤ 'F' then some (c.toNat - 55)
  else none

/-- `u8::from_str_radix(chunk, 16)` on a two-character chunk: Rust's integer
parser also accepts an optional leading plus sign, so the chunk is either
two hex digits or a plus sign followed by one hex digit. -/
def fromStrRadix16Pair (c1 c2 : Char) : Option Nat :=
  if c1 = '+' then hexDigitVal c2
  else
    match hexDigitVal c1, hexDigitVal c2 with
    | some h1, some h2 => some (16 * h1 + h2)
    | _, _ => none

/-- The hex-decode loop of `message_and_signature`: the suffix two
characters at a time through `u8::from_str_radix`, collected into bytes,
any chunk failure failing the whole decode. (The loop runs only on suffixes
of even length, so the final one-character case is never reached there.) -/
def decodePairs : List Char → Option (List Nat)
  | [] => some []
  | c1 :: c2 :: rest =>
    match fromStrRadix16Pair c1 c2, decodePairs rest with
    | some b, some bs => some (b :: bs)
    | _, _ => none
  | [_] => none

/-- The inner `message_and_signature` of `Event::verify_payload`: the MAC
message is the message-id header bytes, the message-timestamp header bytes
and the raw body, concatenated in that order with no separators; the
signature is the signature header as text, which must start with "sha256="
and whose remainder must have even length and hex-decode chunkwise. -/
def message_and_signature (r : HttpRequest) : Option (List Nat × List Nat) :=
  match r.getHeader "Twitch-Eventsub-Message-Id" with
  | none => none
  | some id =>
    match r.getHeader "Twitch-Eventsub-Message-Timestamp" with
    | none => none
    | some timestamp =>
      let message := id ++ timestamp ++ r.body
      match r.getHeader "Twitch-Eventsub-Message-Signature" with
      | none => none
      | some sigBytes =>
        match headerValueToStr sigBytes with
        | none => none
        | some s =>
          if strStartsWith s "sha256=" then
            let suffix := s.toList.drop 7
            if suffix.length % 2 = 0 then
              (decodePairs suffix).map (fun signature => (message, signature))
            else none
          else none

/-- `Event::verify_payload`: true exactly when the headers and signature
decode and the HMAC-SHA-256 of the message under the secret verifies
against the decoded signature (`Mac::verify` compares the full digests). -/
def Event.verify_payload (r : HttpRequest) (secret : List Nat) : Bool :=
  match message_and_signature r with
  | some (message, signature) => hmacSha256 secret message == signature
  | none => false

/-- Spec-side acceptance condition (following the claim's words, for
comparison with the code path): all three verifier headers present, the
signature header visible-ASCII text of the form "sha256=" followed by an
even-length suffix whose chunkwise parse is exactly the HMAC-SHA-256 digest
of id, timestamp and body under the secret. -/
def verifyAccepts (r : HttpRequest) (secret : List Nat) : Prop :=
  ∃ id ts sig s,
    r.getHeader "Twitch-Eventsub-Message-Id" = some id ∧
    r.getHeader "Twitch-Eventsub-Message-Timestamp" = some ts ∧
    r.getHeader "Twitch-Eventsub-Message-Signature" = some sig ∧
    headerValueToStr sig = some s ∧
    strStartsWith s "sha256=" = true ∧
    (s.toList.drop 7).length % 2 = 0 ∧
    decodePairs (s.toList.drop 7) = some (hmacSha256 secret (id ++ ts ++ r.body))

/-- Whether a character is a hexadecimal digit (either case). -/
def isHexDigitChar (c : Char) : Bool :=
  (hexDigitVal c).isSome

/-- Hex decoding in the strict sense of the spec's signature format: pairs
of hex digits only, no sign characters. A string is "a hex encoding" of a
byte string exactly when this decode yields it. -/
def strictHexDecode : List Char → Option (List Nat)
  | [] => some []
  | c1 :: c2 :: rest =>
    match hexDigitVal c1, hexDigitVal c2 with
    | some h1, some h2 =>
      match strictHexDecode rest with
      | some bs => some ((16 * h1 + h2) :: bs)
      | none => none
    | _, _ => none
  | [_] => none

/-- `ys` is `xs` with exactly one byte altered: same length, a differing
position, all other positions equal. -/
def singleByteAltered (xs ys : List Nat) : Prop :=
  ys.length = xs.length ∧
    ∃ i < xs.length, ys.getD i 0 ≠ xs.getD i 0 ∧
      ∀ j < xs.length, j ≠ i → ys.getD j 0 = xs.getD j 0

instance singleByteAlteredDec (xs ys : List Nat) :
    Decidable (singleByteAltered xs ys) := by
  unfold singleByteAltered
  exact inferInstance

/-! Concrete inputs used by witnesses, counterexamples and sanity checks. -/

/-- A verification-path request with the three verifier headers. -/
def mkVerifyRequest (id ts : List Nat) (sig : String) (body : List Nat) :
    HttpRequest :=
  { headers := [("Twitch-Eventsub-Message-Id", id),
                ("Twitch-Eventsub-Message-Timestamp", ts),
                ("Twitch-Eventsub-Message-Signature", strBytes sig)],
    body := body }

def vSecret1 : List Nat := strBytes "top-secret-1"

def vId1 : List Nat := strBytes "message-id-0001"

def vTs1 : List Nat := strBytes "2021-06-01T12:00:00Z"

def vBody1 : List Nat := strBytes "hello-world-body"

/-- The lowercase hex encoding of
`hmacSha256 vSecret1 (vId1 ++ vTs1 ++ vBody1)`. -/
def goodSig1 : String :=
  "fce44b9656a529db67691e9462f2ba63adb6cc619b2178d30fbf5ca3f4e74256"

/-- `goodSig1` with the chunk "0f" (digest byte 24) replaced by "+f", which
`u8::from_str_radix` parses to the same byte value 15. -/
def plusSig1 : String :=
  "fce44b9656a529db67691e9462f2ba63adb6cc619b2178d3+fbf5ca3f4e74256"

def rqPlus1 : HttpRequest := mkVerifyRequest vId1 vTs1 ("sha256=" ++ plusSig1) vBody1

def rqGood1 : HttpRequest := mkVerifyRequest vId1 vTs1 ("sha256=" ++ goodSig1) vBody1

/-- `vBody1` with its first byte altered (the letter h to the letter j). -/
def vBody1Alt : List Nat := vBody1.set 0 106

/-- `rqGood1` with the body altered and the signature kept. -/
def rqAltered1 : HttpRequest :=
  mkVerifyRequest vId1 vTs1 ("sha256=" ++ goodSig1) vBody1Alt

def vId2 : List Nat := strBytes "message-id-0002"

def vTs2 : List Nat := strBytes "2021-06-02T12:00:00Z"

def vBody2 : List Nat := strBytes "another-body"

/-- The lowercase hex encoding of
`hmacSha256 vSecret1 (vId2 ++ vTs2 ++ vBody2)` with the chunk "07" (digest
byte 1) replaced by "+7", which `u8::from_str_radix` parses to the same
byte value 7. -/
def plusSig2 : String :=
  "dd+74d711e54cacb5a24c9ef54c6a047a08f783ace3dee10cab264aa58d12bbc"

def rqPlus2 : HttpRequest := mkVerifyRequest vId2 vTs2 ("sha256=" ++ plusSig2) vBody2

/-- A request with no headers at all. -/
def rqEmpty : HttpRequest := { headers := [], body := [] }

/-! Intermediate SHA-256 values of the verifier examples, block by block.
All byte strings below share the secret `vSecret1`, so the two pad blocks
and the two states after compressing them are shared; splitting each digest
computation into one compression per lemma keeps every single proof term
small. The values are fixed by the algorithm; the lemmas in the theorem
section check each of them against the definitions. -/

/-- The HMAC inner pad block for `vSecret1`: the zero-padded key xored with 0x36. -/
def ipad1 : List Nat :=
  [66, 89, 70, 27, 69, 83, 85, 68, 83, 66, 27, 7, 54, 54, 54, 54, 54, 54, 54, 54, 54,
   54, 54, 54, 54, 54, 54, 54, 54, 54, 54, 54, 54, 54, 54, 54, 54, 54, 54, 54, 54, 54,
   54, 54, 54, 54, 54, 54, 54, 54, 54, 54, 54, 54, 54, 54, 54, 54, 54, 54, 54, 54, 54,
   54]

/-- The HMAC outer pad block for `vSecret1`: the zero-padded key xored with 0x5c. -/
def opad1 : List Nat :=
  [40, 51, 44, 113, 47, 57, 63, 46, 57, 40, 113, 109, 92, 92, 92, 92, 92, 92, 92, 92,
   92, 92, 92, 92, 92, 92, 92, 92, 92, 92, 92, 92, 92, 92, 92, 92, 92, 92, 92, 92, 92,
   92, 92, 92, 92, 92, 92, 92, 92, 92, 92, 92, 92, 92, 92, 92, 92, 92, 92, 92, 92, 92,
   92, 92]

/-- The SHA-256 state after compressing `ipad1` into the initial state. -/
def istate1 : List Nat :=
  [123194968, 1314432566, 1129132512, 1967213177, 2307966863, 925492426, 2788302627,
   1206838695]

/-- The SHA-256 state after compressing `opad1` into the initial state. -/
def ostate1 : List Nat :=
  [1314749720, 2107688811, 1590501386, 1936364558, 1760180170, 735254652, 489561096,
   1634221436]

/-- Second block of the inner SHA-256 input for the original message (`vId1 ++ vTs1 ++ vBody1`). -/
def iblkG : List Nat :=
  [109, 101, 115, 115, 97, 103, 101, 45, 105, 100, 45, 48, 48, 48, 49, 50, 48, 50, 49,
   45, 48, 54, 45, 48, 49, 84, 49, 50, 58, 48, 48, 58, 48, 48, 90, 104, 101, 108, 108,
   111, 45, 119, 111, 114, 108, 100, 45, 98, 111, 100, 121, 128, 0, 0, 0, 0, 0, 0, 0, 0,
   0, 0, 3, 152]

/-- Final inner SHA-256 state for the original message (`vId1 ++ vTs1 ++ vBody1`). -/
def ifinG : List Nat :=
  [645722761, 1003611270, 1885827862, 2767438152, 3382579047, 3412967306, 321505440,
   3682328424]

/-- Inner SHA-256 digest for the original message (`vId1 ++ vTs1 ++ vBody1`). -/
def innerDG : List Nat :=
  [38, 124, 242, 137, 59, 209, 228, 134, 112, 103, 115, 22, 164, 243, 193, 72, 201, 158,
   15, 103, 203, 109, 191, 138, 19, 41, 200, 160, 219, 123, 223, 104]

/-- Second block of the outer SHA-256 input for the original message (`vId1 ++ vTs1 ++ vBody1`). -/
def oblkG : List Nat :=
  [38, 124, 242, 137, 59, 209, 228, 134, 112, 103, 115, 22, 164, 243, 193, 72, 201, 158,
   15, 103, 203, 109, 191, 138, 19, 41, 200, 160, 219, 123, 223, 104, 128, 0, 0, 0, 0,
   0, 0, 0, 0, 0, 0, 0, 0, 0, 0, 0, 0, 0, 0, 0, 0, 0, 0, 0, 0, 0, 0, 0, 0, 0, 3, 0]

/-- Final outer SHA-256 state for the original message (`vId1 ++ vTs1 ++ vBody1`). -/
def ofinG : List Nat :=
  [4242819990, 1453664731, 1734942356, 1660074595, 2914438241, 2602662099, 264199331,
   4108796502]

/-- The HMAC-SHA-256 digest under `vSecret1` for the original message (`vId1 ++ vTs1 ++ vBody1`). -/
def digestG : List Nat :=
  [252, 228, 75, 150, 86, 165, 41, 219, 103, 105, 30, 148, 98, 242, 186, 99, 173, 182,
   204, 97, 155, 33, 120, 211, 15, 191, 92, 163, 244, 231, 66, 86]

/-- Second block of the inner SHA-256 input for the altered message (`vId1 ++ vTs1 ++ vBody1Alt`). -/
def iblkA : List Nat :=
  [109, 101, 115, 115, 97, 103, 101, 45, 105, 100, 45, 48, 48, 48, 49, 50, 48, 50, 49,
   45, 48, 54, 45, 48, 49, 84, 49, 50, 58, 48, 48, 58, 48, 48, 90, 106, 101, 108, 108,
   111, 45, 119, 111, 114, 108, 100, 45, 98, 111, 100, 121, 128, 0, 0, 0, 0, 0, 0, 0, 0,
   0, 0, 3, 152]

/-- Final inner SHA-256 state for the altered message (`vId1 ++ vTs1 ++ vBody1Alt`). -/
def ifinA : List Nat :=
  [3201046110, 1998871372, 3122938753, 2808610173, 3332964282, 2228585272, 1187008236,
   2767404396]

/-- Inner SHA-256 digest for the altered message (`vId1 ++ vTs1 ++ vBody1Alt`). -/
def innerDA : List Nat :=
  [190, 204, 22, 94, 119, 36, 91, 76, 186, 36, 67, 129, 167, 103, 253, 125, 198, 168,
   255, 186, 132, 213, 131, 56, 70, 192, 78, 236, 164, 243, 61, 108]

/-- Second block of the outer SHA-256 input for the altered message (`vId1 ++ vTs1 ++ vBody1Alt`). -/
def oblkA : List Nat :=
  [190, 204, 22, 94, 119, 36, 91, 76, 186, 36, 67, 129, 167, 103, 253, 125, 198, 168,
   255, 186, 132, 213, 131, 56, 70, 192, 78, 236, 164, 243, 61, 108, 128, 0, 0, 0, 0, 0,
   0, 0, 0, 0, 0, 0, 0, 0, 0, 0, 0, 0, 0, 0, 0, 0, 0, 0, 0, 0, 0, 0, 0, 0, 3, 0]

/-- Final outer SHA-256 state for the altered message (`vId1 ++ vTs1 ++ vBody1Alt`). -/
def ofinA : List Nat :=
  [1865453579, 4210644041, 2278372743, 1255958508, 22640832, 2584876676, 1472242851,
   1223106784]

/-- The HMAC-SHA-256 digest under `vSecret1` for the altered message (`vId1 ++ vTs1 ++ vBody1Alt`). -/
def digestA : List Nat :=
  [111, 48, 144, 11, 250, 249, 84, 73, 135, 205, 53, 135, 74, 220, 103, 236, 1, 89, 120,
   192, 154, 18, 22, 132, 87, 192, 164, 163, 72, 231, 32, 224]

/-- Second block of the inner SHA-256 input for the second message (`vId2 ++ vTs2 ++ vBody2`). -/
def iblkP : List Nat :=
  [109, 101, 115, 115, 97, 103, 101, 45, 105, 100, 45, 48, 48, 48, 50, 50, 48, 50, 49,
   45, 48, 54, 45, 48, 50, 84, 49, 50, 58, 48, 48, 58, 48, 48, 90, 97, 110, 111, 116,
   104, 101, 114, 45, 98, 111, 100, 121, 128, 0, 0, 0, 0, 0, 0, 0, 0, 0, 0, 0, 0, 0, 0,
   3, 120]

/-- Final inner SHA-256 state for the second message (`vId2 ++ vTs2 ++ vBody2`). -/
def ifinP : List Nat :=
  [2436809855, 1036710295, 2985607162, 1365226450, 787668269, 1988685990, 3827167888,
   1193585979]

/-- Inner SHA-256 digest for the second message (`vId2 ++ vTs2 ++ vBody2`). -/
def innerDP : List Nat :=
  [145, 62, 196, 127, 61, 202, 241, 151, 177, 244, 191, 250, 81, 95, 179, 210, 46, 242,
   221, 45, 118, 136, 240, 166, 228, 29, 242, 144, 71, 36, 173, 59]

/-- Second block of the outer SHA-256 input for the second message (`vId2 ++ vTs2 ++ vBody2`). -/
def oblkP : List Nat :=
  [145, 62, 196, 127, 61, 202, 241, 151, 177, 244, 191, 250, 81, 95, 179, 210, 46, 242,
   221, 45, 118, 136, 240, 166, 228, 29, 242, 144, 71, 36, 173, 59, 128, 0, 0, 0, 0, 0,
   0, 0, 0, 0, 0, 0, 0, 0, 0, 0, 0, 0, 0, 0, 0, 0, 0, 0, 0, 0, 0, 0, 0, 0, 3, 0]

/-- Final outer SHA-256 state for the second message (`vId2 ++ vTs2 ++ vBody2`). -/
def ofinP : List Nat :=
  [3708243313, 508873419, 1512360431, 1422303303, 2693756986, 3460165136, 3400688810,
   1490103228]

/-- The HMAC-SHA-256 digest under `vSecret1` for the second message (`vId2 ++ vTs2 ++ vBody2`). -/
def digestP : List Nat :=
  [221, 7, 77, 113, 30, 84, 202, 203, 90, 36, 201, 239, 84, 198, 160, 71, 160, 143, 120,
   58, 206, 61, 238, 16, 202, 178, 100, 170, 88, 209, 43, 188]

/-- A well-formed subscription block for the stream.online entry. -/
def subJson1 : Json :=
  .obj [("type", .str "stream.online"), ("version", .str "1"),
        ("id", .str "sub-id-1"), ("status", .str "enabled"),
        ("cost", .num 0), ("created_at", .str "2021-06-01T12:00:00Z"),
        ("transport", .obj [("method", .str "webhook")]),
        ("condition", .obj [("broadcaster_user_id", .str "1337")])]

/-- The `Subscription` value `subJson1` deserializes to. -/
def sub1 : Subscription :=
  { id := "sub-id-1", status := "enabled", cost := 0,
    created_at := "2021-06-01T12:00:00Z",
    transport := .obj [("method", .str "webhook")],
    condition := .obj [("broadcaster_user_id", .str "1337")] }

def evJson1 : Json :=
  .obj [("id", .str "1"), ("broadcaster_user_id", .str "1337")]

/-- A well-formed notification body for the stream.online entry. -/
def notifBody1 : Json :=
  .obj [("subscription", subJson1), ("event", evJson1)]

/-- A well-formed verification-request body for the stream.online entry:
the subscription block plus a string challenge, the wire shape the spec
defines. -/
def challengeBody1 : Json :=
  .obj [("subscription", subJson1),
        ("challenge", .str "pogchamp-kappa-360noscope-vohiyo")]

/-- A well-formed revocation body: the subscription block alone. -/
def revocationBody1 : Json := .obj [("subscription", subJson1)]

/-- A body whose declared type string is not a catalog wire string. -/
def unknownTypeBody1 : Json :=
  .obj [("subscription",
          .obj [("type", .str "channel.bogus"), ("version", .str "1")]),
        ("event", evJson1)]

/-- An HTTP parse-path request whose type header is not a catalog wire
string. -/
def unknownTypeHttp1 : HttpJsonRequest :=
  { headers := [("Twitch-Eventsub-Subscription-Type", strBytes "channel.bogus"),
                ("Twitch-Eventsub-Subscription-Version", strBytes "1"),
                ("Twitch-Eventsub-Message-Type", strBytes "notification")],
    body := notifBody1 }

/-- The event `notifBody1` parses to. -/
def event1 : Event := .streamOnlineV1 ⟨sub1, .notification evJson1⟩

/-- The subscription record `event1` normalizes to. -/
def record1 : EventSubSubscription :=
  { cost := 0, condition := .obj [("broadcaster_user_id", .str "1337")],
    created_at := "2021-06-01T12:00:00Z", id := "sub-id-1",
    status := "enabled", transport := .obj [("method", .str "webhook")],
    type_ := .streamOnline, version := "1" }

/-! Theorems. -/

set_option maxRecDepth 1000000

set_option maxHeartbeats 64000000

/-- Dispatch hits the variant of the dispatched tag. -/
theorem Event.tagOf_dispatch (t : EventType) (p : Payload) :
    (Event.dispatch t p).tagOf = t := by
  cases t <;> rfl

/-- Dispatch carries the payload through unchanged. -/
theorem Event.payloadOf_dispatch (t : EventType) (p : Payload) :
    (Event.dispatch t p).payloadOf = p := by
  cases t <;> rfl

/-- Every catalog entry's version string is "1". -/
theorem catalog_mem_version {t : EventType} {v : String}
    (h : (t, v) ∈ catalog) : v = "1" := by
  obtain ⟨a, -, ha⟩ := List.mem_map.mp h
  exact (congrArg Prod.snd ha).symm

/-- C8: the tag-to-wire-string mapping is bijective. Every tag serializes to
exactly one wire string (`toWire` is a function), no two distinct tags share
a wire string (`toWire` is injective), and deserializing a tag's wire string
returns that tag (the round-trip is the identity). -/
theorem eventType_wire_bijective :
    (∀ t : EventType, EventType.fromWire (EventType.toWire t) = some t) ∧
    Function.Injective EventType.toWire := by
  have key : ∀ t : EventType, EventType.fromWire (EventType.toWire t) = some t := by
    intro t; cases t <;> rfl
  refine ⟨key, fun a b hab => Option.some.inj ?_⟩
  rw [← key a, ← key b, hab]

/-- Witness for C8: the round-trip and injectivity at a concrete tag. -/
theorem eventType_wire_bijective_witness :
    EventType.fromWire (EventType.toWire .channelUpdate) = some .channelUpdate ∧
    EventType.channelUpdate = EventType.channelUpdate :=
  ⟨eventType_wire_bijective.1 .channelUpdate,
   eventType_wire_bijective.2
     (rfl : EventType.toWire .channelUpdate = EventType.toWire .channelUpdate)⟩

/-- C9: the three classification predicates are mutually exclusive — no two
of them are true on the same event, whatever variant it holds. -/
theorem classification_predicates_exclusive (e : Event) :
    (e.is_notification && e.is_revocation) = false ∧
    (e.is_notification && e.is_verification_request) = false ∧
    (e.is_revocation && e.is_verification_request) = false := by
  cases e <;> rename_i p <;> obtain ⟨s, m⟩ := p <;> cases m <;> exact ⟨rfl, rfl, rfl⟩

/-- C10: `get_verification_request` returns Some exactly when
`is_verification_request` is true, across all variants. -/
theorem get_verification_request_iff_predicate (e : Event) :
    (e.get_verification_request).isSome = e.is_verification_request := by
  cases e <;> rename_i p <;> obtain ⟨s, m⟩ := p <;> cases m <;> rfl

/-- C3: a (version, tag) pair matching no catalog entry makes
`Event::parse_request` fail with UnimplementedEvent echoing both inputs
exactly, an error distinct from UnknownEventType. -/
theorem parse_request_unimplemented (v : String) (t : EventType)
    (mt : List Nat) (src : Json) (h : (t, v) ∉ catalog) :
    Event.parse_request v t mt src = .error (.unimplementedEvent v t) ∧
    ∀ s, PayloadParseError.unimplementedEvent v t ≠ .unknownEventType s := by
  refine ⟨?_, fun s hs => PayloadParseError.noConfusion hs⟩
  simp [Event.parse_request, h]

/-- Witness for C3: channel.update at the unsupported version "2". -/
theorem parse_request_unimplemented_witness :
    Event.parse_request "2" .channelUpdate [] .null =
      .error (.unimplementedEvent "2" .channelUpdate) :=
  (parse_request_unimplemented "2" .channelUpdate [] .null (by decide)).1

/-- C5: on every text body whose minimal envelope shape extracts, the
inferred message kind is notification when the `event` probe is populated
(whatever the `challenge` probe holds, so a body populating both classifies
as a notification), verification request when only the `challenge` probe is
populated, and revocation when neither is. -/
theorem text_envelope_message_kind (body : Json) (v : String)
    (ty : EventType) (mt : List Nat)
    (h : get_version_event_type_and_message_type_from_text body = .ok (v, ty, mt)) :
    (optEmptyField body "event" = some (some ()) → mt = strBytes "notification") ∧
    (optEmptyField body "event" = some none →
      optEmptyField body "challenge" = some (some ()) →
        mt = strBytes "webhook_callback_verification") ∧
    (optEmptyField body "event" = some none →
      optEmptyField body "challenge" = some none → mt = strBytes "revocation") := by
  unfold get_version_event_type_and_message_type_from_text at h
  repeat' split at h
  all_goals try (cases h)
  all_goals simp_all [Option.isSome_iff_ne_none]

/-- Witness for C5: the revocation body, with the envelope evaluated. -/
theorem text_envelope_message_kind_witness :
    get_version_event_type_and_message_type_from_text revocationBody1 =
      .ok ("1", .streamOnline, strBytes "revocation") ∧
    strBytes "revocation" = strBytes "revocation" :=
  ⟨by rfl,
   (text_envelope_message_kind revocationBody1 "1" .streamOnline
     (strBytes "revocation") (by rfl)).2.2 (by rfl) (by rfl)⟩

/-- C4: a declared event-type string outside the catalog's wire strings
fails the parse with UnknownEventType carrying that string, on the text path
(whatever the rest of the body holds) and on the HTTP path (whatever the
body holds). -/
theorem unknown_event_type_rejected :
    (∀ (body sub : Json) (tyStr : String),
      body.getField "subscription" = some sub →
      (sub.getField "type").bind Json.asStr = some tyStr →
      EventType.fromWire tyStr = none →
      Event.parse body = .error (.unknownEventType tyStr)) ∧
    (∀ (r : HttpJsonRequest) (tyB verB mtB : List Nat) (tyCs verCs : List Char),
      r.getHeader "Twitch-Eventsub-Subscription-Type" = some tyB →
      utf8Decode tyB = some tyCs →
      r.getHeader "Twitch-Eventsub-Subscription-Version" = some verB →
      utf8Decode verB = some verCs →
      r.getHeader "Twitch-Eventsub-Message-Type" = some mtB →
      EventType.fromWire (String.mk tyCs) = none →
      Event.parse_http r = .error (.unknownEventType (String.mk tyCs))) := by
  constructor
  · intro body sub tyStr h1 h2 h3
    have henv : get_version_event_type_and_message_type_from_text body =
        .error (.unknownEventType tyStr) := by
      unfold get_version_event_type_and_message_type_from_text
      simp only [h1, h2, h3]
    unfold Event.parse
    rw [henv]
    rfl
  · intro r tyB verB mtB tyCs verCs h1 h2 h3 h4 h5 h6
    have hmid : get_version_event_type_and_message_type_from_http r =
        match EventType.fromWire (String.mk tyCs) with
        | some et => .ok (String.mk verCs, et, mtB)
        | none => .error (.unknownEventType (String.mk tyCs)) := by
      unfold get_version_event_type_and_message_type_from_http headerText
      simp only [h1, h2, h3, h4, h5]
      rfl
    have henv : get_version_event_type_and_message_type_from_http r =
        .error (.unknownEventType (String.mk tyCs)) := hmid.trans (by rw [h6])
    unfold Event.parse_http
    rw [henv]
    rfl

/-- Witness for C4: the wire string "channel.bogus" on both paths. -/
theorem unknown_event_type_rejected_witness :
    Event.parse unknownTypeBody1 = .error (.unknownEventType "channel.bogus") ∧
    Event.parse_http unknownTypeHttp1 =
      .error (.unknownEventType (String.mk ("channel.bogus".toList))) :=
  ⟨unknown_event_type_rejected.1 unknownTypeBody1
     (.obj [("type", .str "channel.bogus"), ("version", .str "1")])
     "channel.bogus" (by rfl) (by rfl) (by rfl),
   unknown_event_type_rejected.2 unknownTypeHttp1
     (strBytes "channel.bogus") (strBytes "1") (strBytes "notification")
     ("channel.bogus".toList) ("1".toList)
     (by rfl) (by rfl) (by rfl) (by rfl) (by rfl) (by rfl)⟩

/-- C6: the spec-conformant verification-request text body (string-valued
challenge) does not round-trip through `Event::parse`: the envelope's
`Option Empty` probe for the `challenge` field rejects a JSON string, so
the parse fails with MalformedEnvelope instead of producing a verification
request. The second conjunct isolates the cause: the probe fails on the
string challenge. -/
theorem parse_challenge_body_fails :
    Event.parse challengeBody1 = .error .malformedEvent ∧
    optEmptyField challengeBody1 "challenge" = none :=
  ⟨rfl, rfl⟩

/-- A successful full-payload parse deserializes the body's subscription
block into the payload's subscription field. -/
theorem Payload.parse_request_subscription {mt : List Nat} {body : Json}
    {p : Payload} (h : Payload.parse_request mt body = .ok p) :
    (body.getField "subscription").bind Subscription.fromJson = some p.subscription := by
  unfold Payload.parse_request at h
  cases hsub : (body.getField "subscription").bind Subscription.fromJson with
  | none => rw [hsub] at h; exact Except.noConfusion h
  | some s =>
    simp only [hsub] at h
    split_ifs at h
    · revert h
      split
      · intro h; cases Except.ok.inj h; rfl
      · intro h; exact Except.noConfusion h
    · revert h
      split
      · intro h; cases Except.ok.inj h; rfl
      · intro h; exact Except.noConfusion h
    · cases Except.ok.inj h; rfl

/-- C7: on every successfully dispatched event whose metadata extraction
succeeds, the record's `type_` and `version` are the tag and version the
dispatcher matched, and its `id`, `status`, `cost`, `created_at` and
`transport` are those of the body's embedded subscription block. -/
theorem subscription_record_consistency
    (v : String) (t : EventType) (mt : List Nat) (body : Json)
    (e : Event) (rec : EventSubSubscription) (sub : Subscription)
    (hp : Event.parse_request v t mt body = .ok e)
    (hr : Event.subscription e = some rec)
    (hs : (body.getField "subscription").bind Subscription.fromJson = some sub) :
    rec.type_ = t ∧ rec.version = v ∧ rec.id = sub.id ∧ rec.status = sub.status ∧
    rec.cost = sub.cost ∧ rec.created_at = sub.created_at ∧
    rec.transport = sub.transport := by
  unfold Event.parse_request at hp
  by_cases hmem : (t, v) ∈ catalog
  · rw [if_pos hmem] at hp
    cases hpp : Payload.parse_request mt body with
    | error er => rw [hpp] at hp; exact Except.noConfusion hp
    | ok p =>
      rw [hpp] at hp
      have he : e = Event.dispatch t p := by
        simpa [Except.map, eq_comm] using hp
      have hpsub : (body.getField "subscription").bind Subscription.fromJson =
          some p.subscription := Payload.parse_request_subscription hpp
      have hsp : sub = p.subscription := by
        rw [hs] at hpsub; exact Option.some.inj hpsub
      subst he
      unfold Event.subscription at hr
      rw [Event.payloadOf_dispatch, Event.tagOf_dispatch] at hr
      cases hc : conditionResolve p.subscription.condition with
      | none => rw [hc] at hr; simp at hr
      | some c =>
        rw [hc] at hr
        simp only [Option.map_some'] at hr
        have hrec := (Option.some.inj hr).symm
        subst hrec
        subst hsp
        exact ⟨rfl, (catalog_mem_version hmem).symm, rfl, rfl, rfl, rfl, rfl⟩
  · rw [if_neg hmem] at hp; simp at hp

/-- Witness for C7: the stream.online notification body. -/
theorem subscription_record_consistency_witness :
    record1.type_ = EventType.streamOnline ∧ record1.version = "1" ∧
    record1.id = sub1.id ∧ record1.status = sub1.status ∧
    record1.cost = sub1.cost ∧ record1.created_at = sub1.created_at ∧
    record1.transport = sub1.transport :=
  subscription_record_consistency "1" .streamOnline (strBytes "notification")
    notifBody1 event1 record1 sub1 (by rfl) (by rfl) (by rfl)

/-- The inner pad block of `vSecret1`, as the HMAC key preparation builds
it. -/
theorem ipad1_spec :
    (vSecret1 ++ List.replicate (64 - vSecret1.length) 0).map
      (fun b => xorBits 8 b 0x36) = ipad1 := by decide

/-- The outer pad block of `vSecret1`. -/
theorem opad1_spec :
    (vSecret1 ++ List.replicate (64 - vSecret1.length) 0).map
      (fun b => xorBits 8 b 0x5c) = opad1 := by decide

/-- Compressing the inner pad block into the initial SHA-256 state. -/
theorem istate1_spec : shaCompress shaInit ipad1 = istate1 := by decide

/-- Compressing the outer pad block into the initial SHA-256 state. -/
theorem ostate1_spec : shaCompress shaInit opad1 = ostate1 := by decide

/-- Block decomposition of the inner SHA-256 input for the original message. -/
theorem iblocksG_spec :
    chunksOf 64 (shaPad (ipad1 ++ (vId1 ++ vTs1 ++ vBody1))) = [ipad1, iblkG] := by decide

/-- Second inner compression for the original message. -/
theorem icompG_spec : shaCompress istate1 iblkG = ifinG := by decide

/-- The inner SHA-256 digest for the original message. -/
theorem ishaG_spec : sha256 (ipad1 ++ (vId1 ++ vTs1 ++ vBody1)) = innerDG := by
  unfold sha256
  rw [iblocksG_spec]
  simp only [List.foldl_cons, List.foldl_nil]
  rw [istate1_spec, icompG_spec]
  decide

/-- Block decomposition of the outer SHA-256 input for the original message. -/
theorem oblocksG_spec :
    chunksOf 64 (shaPad (opad1 ++ innerDG)) = [opad1, oblkG] := by decide

/-- Second outer compression for the original message. -/
theorem ocompG_spec : shaCompress ostate1 oblkG = ofinG := by decide

/-- The outer SHA-256 digest (the HMAC digest) for the original message. -/
theorem oshaG_spec : sha256 (opad1 ++ innerDG) = digestG := by
  unfold sha256
  rw [oblocksG_spec]
  simp only [List.foldl_cons, List.foldl_nil]
  rw [ostate1_spec, ocompG_spec]
  decide

/-- The HMAC-SHA-256 digest under `vSecret1` for the original message. -/
theorem hmacG_spec : hmacSha256 vSecret1 (vId1 ++ vTs1 ++ vBody1) = digestG := by
  have h1 : hmacSha256 vSecret1 (vId1 ++ vTs1 ++ vBody1) =
      sha256 (((vSecret1 ++ List.replicate (64 - vSecret1.length) 0).map
          (fun b => xorBits 8 b 0x5c)) ++
        sha256 (((vSecret1 ++ List.replicate (64 - vSecret1.length) 0).map
          (fun b => xorBits 8 b 0x36)) ++ (vId1 ++ vTs1 ++ vBody1))) := rfl
  rw [h1, ipad1_spec, ishaG_spec, opad1_spec]
  exact oshaG_spec

/-- Block decomposition of the inner SHA-256 input for the altered message. -/
theorem iblocksA_spec :
    chunksOf 64 (shaPad (ipad1 ++ (vId1 ++ vTs1 ++ vBody1Alt))) = [ipad1, iblkA] := by decide

/-- Second inner compression for the altered message. -/
theorem icompA_spec : shaCompress istate1 iblkA = ifinA := by decide

/-- The inner SHA-256 digest for the altered message. -/
theorem ishaA_spec : sha256 (ipad1 ++ (vId1 ++ vTs1 ++ vBody1Alt)) = innerDA := by
  unfold sha256
  rw [iblocksA_spec]
  simp only [List.foldl_cons, List.foldl_nil]
  rw [istate1_spec, icompA_spec]
  decide

/-- Block decomposition of the outer SHA-256 input for the altered message. -/
theorem oblocksA_spec :
    chunksOf 64 (shaPad (opad1 ++ innerDA)) = [opad1, oblkA] := by decide

/-- Second outer compression for the altered message. -/
theorem ocompA_spec : shaCompress ostate1 oblkA = ofinA := by decide

/-- The outer SHA-256 digest (the HMAC digest) for the altered message. -/
theorem oshaA_spec : sha256 (opad1 ++ innerDA) = digestA := by
  unfold sha256
  rw [oblocksA_spec]
  simp only [List.foldl_cons, List.foldl_nil]
  rw [ostate1_spec, ocompA_spec]
  decide

/-- The HMAC-SHA-256 digest under `vSecret1` for the altered message. -/
theorem hmacA_spec : hmacSha256 vSecret1 (vId1 ++ vTs1 ++ vBody1Alt) = digestA := by
  have h1 : hmacSha256 vSecret1 (vId1 ++ vTs1 ++ vBody1Alt) =
      sha256 (((vSecret1 ++ List.replicate (64 - vSecret1.length) 0).map
          (fun b => xorBits 8 b 0x5c)) ++
        sha256 (((vSecret1 ++ List.replicate (64 - vSecret1.length) 0).map
          (fun b => xorBits 8 b 0x36)) ++ (vId1 ++ vTs1 ++ vBody1Alt))) := rfl
  rw [h1, ipad1_spec, ishaA_spec, opad1_spec]
  exact oshaA_spec

/-- Block decomposition of the inner SHA-256 input for the second message. -/
theorem iblocksP_spec :
    chunksOf 64 (shaPad (ipad1 ++ (vId2 ++ vTs2 ++ vBody2))) = [ipad1, iblkP] := by decide

/-- Second inner compression for the second message. -/
theorem icompP_spec : shaCompress istate1 iblkP = ifinP := by decide

/-- The inner SHA-256 digest for the second message. -/
theorem ishaP_spec : sha256 (ipad1 ++ (vId2 ++ vTs2 ++ vBody2)) = innerDP := by
  unfold sha256
  rw [iblocksP_spec]
  simp only [List.foldl_cons, List.foldl_nil]
  rw [istate1_spec, icompP_spec]
  decide

/-- Block decomposition of the outer SHA-256 input for the second message. -/
theorem oblocksP_spec :
    chunksOf 64 (shaPad (opad1 ++ innerDP)) = [opad1, oblkP] := by decide

/-- Second outer compression for the second message. -/
theorem ocompP_spec : shaCompress ostate1 oblkP = ofinP := by decide

/-- The outer SHA-256 digest (the HMAC digest) for the second message. -/
theorem oshaP_spec : sha256 (opad1 ++ innerDP) = digestP := by
  unfold sha256
  rw [oblocksP_spec]
  simp only [List.foldl_cons, List.foldl_nil]
  rw [ostate1_spec, ocompP_spec]
  decide

/-- The HMAC-SHA-256 digest under `vSecret1` for the second message. -/
theorem hmacP_spec : hmacSha256 vSecret1 (vId2 ++ vTs2 ++ vBody2) = digestP := by
  have h1 : hmacSha256 vSecret1 (vId2 ++ vTs2 ++ vBody2) =
      sha256 (((vSecret1 ++ List.replicate (64 - vSecret1.length) 0).map
          (fun b => xorBits 8 b 0x5c)) ++
        sha256 (((vSecret1 ++ List.replicate (64 - vSecret1.length) 0).map
          (fun b => xorBits 8 b 0x36)) ++ (vId2 ++ vTs2 ++ vBody2))) := rfl
  rw [h1, ipad1_spec, ishaP_spec, opad1_spec]
  exact oshaP_spec

/-- The altered message has a different digest than the original. -/
theorem digest_alt_ne : hmacSha256 vSecret1 (vId1 ++ vTs1 ++ vBody1Alt) ≠
    hmacSha256 vSecret1 (vId1 ++ vTs1 ++ vBody1) := by
  rw [hmacA_spec, hmacG_spec]
  decide

/-- Message and decoded signature of the honestly signed request. -/
theorem msig_good : message_and_signature rqGood1 =
    some (vId1 ++ vTs1 ++ vBody1, digestG) := by decide

/-- The honestly signed request verifies. -/
theorem verify_good : Event.verify_payload rqGood1 vSecret1 = true := by
  unfold Event.verify_payload
  rw [msig_good]
  show (hmacSha256 vSecret1 (vId1 ++ vTs1 ++ vBody1) == digestG) = true
  rw [hmacG_spec]
  decide

/-- The plus-sign signature of the first request decodes to the same
digest bytes, so the request verifies. -/
theorem msig_plus1 : message_and_signature rqPlus1 =
    some (vId1 ++ vTs1 ++ vBody1, digestG) := by decide

/-- The first plus-sign request verifies. -/
theorem verify_plus1 : Event.verify_payload rqPlus1 vSecret1 = true := by
  unfold Event.verify_payload
  rw [msig_plus1]
  show (hmacSha256 vSecret1 (vId1 ++ vTs1 ++ vBody1) == digestG) = true
  rw [hmacG_spec]
  decide

/-- Message and decoded signature of the second plus-sign request. -/
theorem msig_plus2 : message_and_signature rqPlus2 =
    some (vId2 ++ vTs2 ++ vBody2, digestP) := by decide

/-- The second plus-sign request verifies. -/
theorem verify_plus2 : Event.verify_payload rqPlus2 vSecret1 = true := by
  unfold Event.verify_payload
  rw [msig_plus2]
  show (hmacSha256 vSecret1 (vId2 ++ vTs2 ++ vBody2) == digestP) = true
  rw [hmacP_spec]
  decide

/-- The verifier accepts a request exactly when `verifyAccepts` holds: the
two sides are the code path and the spec-side acceptance condition. -/
theorem verify_payload_true_iff (r : HttpRequest) (k : List Nat) :
    Event.verify_payload r k = true ↔ verifyAccepts r k := by
  constructor
  · intro hv
    unfold Event.verify_payload message_and_signature at hv
    cases h1 : r.getHeader "Twitch-Eventsub-Message-Id" with
    | none => simp [h1] at hv
    | some id =>
    simp only [h1] at hv
    cases h2 : r.getHeader "Twitch-Eventsub-Message-Timestamp" with
    | none => simp [h2] at hv
    | some ts =>
    simp only [h2] at hv
    cases h3 : r.getHeader "Twitch-Eventsub-Message-Signature" with
    | none => simp [h3] at hv
    | some sig =>
    simp only [h3] at hv
    cases h4 : headerValueToStr sig with
    | none => simp [h4] at hv
    | some s =>
    simp only [h4] at hv
    cases h5 : strStartsWith s "sha256=" with
    | false => simp [h5] at hv
    | true =>
    simp only [h5, if_true] at hv
    by_cases h6 : (s.toList.drop 7).length % 2 = 0
    · rw [if_pos h6] at hv
      cases h7 : decodePairs (s.toList.drop 7) with
      | none =>
        rw [h7] at hv
        simp at hv
      | some bs =>
        rw [h7] at hv
        simp only [Option.map_some'] at hv
        have hbs : hmacSha256 k (id ++ ts ++ r.body) = bs := eq_of_beq (by simpa using hv)
        refine ⟨id, ts, sig, s, h1, h2, h3, h4, h5, h6, ?_⟩
        rw [h7]
        exact congrArg some hbs.symm
    · rw [if_neg h6] at hv
      exact Bool.noConfusion hv
  · rintro ⟨id, ts, sig, s, h1, h2, h3, h4, h5, h6, h7⟩
    unfold Event.verify_payload message_and_signature
    simp only [h1, h2, h3, h4, h5, if_true]
    rw [if_pos h6, h7]
    simp

/-- C1 (amended): the verifier returns true exactly when the three headers
are present and the signature header is visible-ASCII text "sha256=" plus an
even-length suffix whose chunkwise `u8::from_str_radix` parse (two hex
digits of either case, or a plus sign and one hex digit) equals the
HMAC-SHA-256 of id, timestamp and body under the secret; and altering a
single byte of id, timestamp, body or secret of an accepted request turns
the verdict false whenever the altered digest differs from the original. -/
theorem verify_payload_signature_characterization :
    (∀ (r : HttpRequest) (k : List Nat),
      Event.verify_payload r k = true ↔ verifyAccepts r k) ∧
    (∀ (r r' : HttpRequest) (k k' id ts id' ts' : List Nat),
      r.getHeader "Twitch-Eventsub-Message-Id" = some id →
      r.getHeader "Twitch-Eventsub-Message-Timestamp" = some ts →
      r'.getHeader "Twitch-Eventsub-Message-Id" = some id' →
      r'.getHeader "Twitch-Eventsub-Message-Timestamp" = some ts' →
      r'.getHeader "Twitch-Eventsub-Message-Signature" =
        r.getHeader "Twitch-Eventsub-Message-Signature" →
      ((singleByteAltered id id' ∧ ts' = ts ∧ r'.body = r.body ∧ k' = k) ∨
       (id' = id ∧ singleByteAltered ts ts' ∧ r'.body = r.body ∧ k' = k) ∨
       (id' = id ∧ ts' = ts ∧ singleByteAltered r.body r'.body ∧ k' = k) ∨
       (id' = id ∧ ts' = ts ∧ r'.body = r.body ∧ singleByteAltered k k')) →
      hmacSha256 k' (id' ++ ts' ++ r'.body) ≠ hmacSha256 k (id ++ ts ++ r.body) →
      Event.verify_payload r k = true →
      Event.verify_payload r' k' = false) := by
  refine ⟨verify_payload_true_iff, ?_⟩
  intro r r' k k' id ts id' ts' h1 h2 h1' h2' hsig _halt hne hv
  cases hb : Event.verify_payload r' k' with
  | false => rfl
  | true =>
    exfalso
    obtain ⟨idA, tsA, sigA, sA, g1, g2, g3, g4, g5, g6, g7⟩ :=
      (verify_payload_true_iff r k).mp hv
    obtain ⟨idB, tsB, sigB, sB, f1, f2, f3, f4, f5, f6, f7⟩ :=
      (verify_payload_true_iff r' k').mp hb
    rw [h1] at g1
    rw [h2] at g2
    rw [h1'] at f1
    rw [h2'] at f2
    cases Option.some.inj g1
    cases Option.some.inj g2
    cases Option.some.inj f1
    cases Option.some.inj f2
    rw [hsig, g3] at f3
    cases Option.some.inj f3
    rw [g4] at f4
    cases Option.some.inj f4
    rw [g7] at f7
    exact hne (Option.some.inj f7).symm

/-- Witness for C1: a request accepted with the honest signature is rejected
after a one-byte body alteration whose digest differs. -/
theorem verify_payload_signature_characterization_witness :
    Event.verify_payload rqAltered1 vSecret1 = false :=
  verify_payload_signature_characterization.2 rqGood1 rqAltered1 vSecret1 vSecret1
    vId1 vTs1 vId1 vTs1 rfl rfl rfl rfl rfl
    (Or.inr (Or.inr (Or.inl ⟨rfl, rfl, by decide, rfl⟩)))
    digest_alt_ne verify_good

/-- Counterexample to C1 as stated: a request the verifier accepts although
its signature header is not "sha256=" followed by a hex encoding of the
digest (the suffix contains a plus sign, which no hex encoding contains, yet
`u8::from_str_radix` parses the chunk "+f"). -/
theorem verify_payload_plus_sign_counterexample :
    Event.verify_payload rqPlus1 vSecret1 = true ∧
    rqPlus1.getHeader "Twitch-Eventsub-Message-Signature" =
      some (strBytes ("sha256=" ++ plusSig1)) ∧
    strictHexDecode plusSig1.toList = none :=
  ⟨verify_plus1, rfl, by decide⟩

/-- C2 (amended): the verifier returns the boolean false — by construction a
total boolean function, never an error — whenever a required header is
missing, the signature text lacks the "sha256=" prefix, the suffix has odd
length, some two-character chunk fails `u8::from_str_radix` (two hex digits
of either case, or a plus sign and one hex digit), or the parsed bytes
differ from the computed digest. -/
theorem verify_payload_reject_conditions (r : HttpRequest) (k : List Nat) :
    ((r.getHeader "Twitch-Eventsub-Message-Id" = none ∨
      r.getHeader "Twitch-Eventsub-Message-Timestamp" = none ∨
      r.getHeader "Twitch-Eventsub-Message-Signature" = none) →
      Event.verify_payload r k = false) ∧
    (∀ sig s, r.getHeader "Twitch-Eventsub-Message-Signature" = some sig →
      headerValueToStr sig = some s →
      strStartsWith s "sha256=" = false →
      Event.verify_payload r k = false) ∧
    (∀ sig s, r.getHeader "Twitch-Eventsub-Message-Signature" = some sig →
      headerValueToStr sig = some s →
      (s.toList.drop 7).length % 2 ≠ 0 →
      Event.verify_payload r k = false) ∧
    (∀ sig s, r.getHeader "Twitch-Eventsub-Message-Signature" = some sig →
      headerValueToStr sig = some s →
      decodePairs (s.toList.drop 7) = none →
      Event.verify_payload r k = false) ∧
    (∀ id ts sig s bs,
      r.getHeader "Twitch-Eventsub-Message-Id" = some id →
      r.getHeader "Twitch-Eventsub-Message-Timestamp" = some ts →
      r.getHeader "Twitch-Eventsub-Message-Signature" = some sig →
      headerValueToStr sig = some s →
      decodePairs (s.toList.drop 7) = some bs →
      bs ≠ hmacSha256 k (id ++ ts ++ r.body) →
      Event.verify_payload r k = false) := by
  refine ⟨?_, ?_, ?_, ?_, ?_⟩
  · intro hmiss
    cases hb : Event.verify_payload r k with
    | false => rfl
    | true =>
      exfalso
      obtain ⟨id, ts, sig, s, g1, g2, g3, -, -, -, -⟩ :=
        (verify_payload_true_iff r k).mp hb
      rcases hmiss with h | h | h
      · rw [h] at g1; exact Option.noConfusion g1
      · rw [h] at g2; exact Option.noConfusion g2
      · rw [h] at g3; exact Option.noConfusion g3
  · intro sig s hsig hstr hpre
    cases hb : Event.verify_payload r k with
    | false => rfl
    | true =>
      exfalso
      obtain ⟨id, ts, sigA, sA, -, -, g3, g4, g5, -, -⟩ :=
        (verify_payload_true_iff r k).mp hb
      rw [hsig] at g3
      cases Option.some.inj g3
      rw [hstr] at g4
      cases Option.some.inj g4
      rw [hpre] at g5
      exact Bool.noConfusion g5
  · intro sig s hsig hstr hodd
    cases hb : Event.verify_payload r k with
    | false => rfl
    | true =>
      exfalso
      obtain ⟨id, ts, sigA, sA, -, -, g3, g4, -, g6, -⟩ :=
        (verify_payload_true_iff r k).mp hb
      rw [hsig] at g3
      cases Option.some.inj g3
      rw [hstr] at g4
      cases Option.some.inj g4
      exact hodd g6
  · intro sig s hsig hstr hdec
    cases hb : Event.verify_payload r k with
    | false => rfl
    | true =>
      exfalso
      obtain ⟨id, ts, sigA, sA, -, -, g3, g4, -, -, g7⟩ :=
        (verify_payload_true_iff r k).mp hb
      rw [hsig] at g3
      cases Option.some.inj g3
      rw [hstr] at g4
      cases Option.some.inj g4
      rw [hdec] at g7
      exact Option.noConfusion g7
  · intro id ts sig s bs h1 h2 h3 h4 h5 hne
    cases hb : Event.verify_payload r k with
    | false => rfl
    | true =>
      exfalso
      obtain ⟨idA, tsA, sigA, sA, g1, g2, g3, g4, -, -, g7⟩ :=
        (verify_payload_true_iff r k).mp hb
      rw [h1] at g1
      cases Option.some.inj g1
      rw [h2] at g2
      cases Option.some.inj g2
      rw [h3] at g3
      cases Option.some.inj g3
      rw [h4] at g4
      cases Option.some.inj g4
      rw [h5] at g7
      exact hne (Option.some.inj g7)

/-- Witness for C2: a request with no headers is rejected. -/
theorem verify_payload_reject_conditions_witness :
    Event.verify_payload rqEmpty [] = false :=
  (verify_payload_reject_conditions rqEmpty []).1 (Or.inl rfl)

/-- Counterexample to C2 as stated: a request whose signature suffix
contains a character that is not a hex digit (a plus sign) and is still
accepted, because `u8::from_str_radix` parses the chunk "+1". -/
theorem verify_payload_nonhex_accept_counterexample :
    Event.verify_payload rqPlus2 vSecret1 = true ∧
    rqPlus2.getHeader "Twitch-Eventsub-Message-Signature" =
      some (strBytes ("sha256=" ++ plusSig2)) ∧
    plusSig2.toList.all isHexDigitChar = false :=
  ⟨verify_plus2, rfl, by decide⟩

end TwitchApi
